import Mathlib

/-!
Verification development for the DebugVisualizer repository
(src/debug_analizer.py).

The file shallowly embeds the three cooperating parts of the program:

* the flow-graph builder (`DebugFlowVisualizer`: `add_node` and its
  label-formatting wrappers),
* the runtime API (`debug_function`, `debug_loop`, `debug_loop_iteration`,
  `debug_loop_end`, `debug_condition`, `debug_variable`, `debug_print`,
  `debug_if_branch`),
* the syntax-tree transformer (`DebugTransformer` with its `visit_For`,
  `visit_If`, `visit_Assign`, `visit_Call`, `visit_FunctionDef` rules),

together with a fuel-indexed interpreter for the mini-Python fragment
the transformer operates on, so that instrumented programs can be run
and the resulting graphs inspected.
-/

namespace DebugViz

/-! ## Mini-Python abstract syntax

The fragment of the Python grammar that the transformer's special cases
touch: names, constants, lists/tuples, comparisons and calls as
expressions; expression statements, assignments, for-loops,
conditionals, function definitions and returns as statements.
-/

inductive CmpOp where
  | lt
  | gt
deriving Repr, DecidableEq

inductive Exp where
  | name (x : String)
  | constInt (n : Int)
  | constStr (s : String)
  | constBool (b : Bool)
  | constNone
  | listE (es : List Exp)
  | tupleE (es : List Exp)
  | call (f : String) (args : List Exp) (kwargs : List (String × Exp))
  | compare (op : CmpOp) (a b : Exp)

/-- Assignment target shapes (`ast.Name`, tuple targets, `ast.Attribute`,
`ast.Subscript`). Only the bare-name shape is instrumented by the
transformer. -/
inductive Target where
  | name (x : String)
  | tupleT (xs : List String)
  | attr (obj fld : String)
  | subscript (obj : String) (index : Exp)

inductive Stmt where
  | exprStmt (e : Exp)
  | assign (targets : List Target) (value : Exp)
  | forLoop (target : String) (iter : Exp) (body : List Stmt)
  | ifStmt (test : Exp) (body : List Stmt) (orelse : List Stmt)
  | funcDef (fname : String) (params : List String) (body : List Stmt) (decorated : Bool)
  | ret (e : Exp)

/-! ## Runtime values -/

inductive Value where
  | none
  | int (n : Int)
  | bool (b : Bool)
  | str (s : String)
  | list (vs : List Value)
  | tuple (vs : List Value)
  /-- A function object. `addr` is the heap address the process gave
  the object when the (decorated) `def` executed: it appears in the
  object's `repr` and depends on the session's allocator, not on the
  program. -/
  | closure (fname : String) (params : List String) (body : List Stmt)
      (decorated : Bool) (addr : Nat)
  /-- The value returned by calling `debug_condition(condition)`: a
  fresh decorator closure (with its own heap address). The generated
  code calls `debug_condition` as a bare expression statement and
  discards this value, so the inner wrapper (which would call
  `visualizer.add_condition`) never runs. -/
  | decorator (cond : String) (addr : Nat)

/-- Hexadecimal rendering of a heap address, as it appears inside a
Python function object's `repr`. -/
def hexAddr (addr : Nat) : String :=
  String.mk (Nat.toDigits 16 addr)

mutual

/-- Python `repr`. String escaping is elided (all strings appearing in
the verified programs are quote-free). The repr of a function object
embeds the object's per-session heap address (`<function f at
0x...>`), so it depends on the session's allocator. -/
def reprV : Value → String
  | Value.none => "None"
  | Value.int n => toString n
  | Value.bool true => "True"
  | Value.bool false => "False"
  | Value.str s => "'" ++ s ++ "'"
  | Value.list vs => "[" ++ reprVList vs ++ "]"
  | Value.tuple [v] => "(" ++ reprV v ++ ",)"
  | Value.tuple vs => "(" ++ reprVList vs ++ ")"
  | Value.closure f _ _ _ addr => "<function " ++ f ++ " at 0x" ++ hexAddr addr ++ ">"
  | Value.decorator _ addr =>
      "<function debug_condition.<locals>.decorator at 0x" ++ hexAddr addr ++ ">"

/-- Comma-separated reprs, as produced by `', '.join`. -/
def reprVList : List Value → String
  | [] => ""
  | [v] => reprV v
  | v :: rest => reprV v ++ ", " ++ reprVList rest

end

/-- Python `str` (as used by f-string interpolation): strings are taken
verbatim, everything else falls back to `repr`. -/
def pyStr (v : Value) : String :=
  match v with
  | Value.str s => s
  | _ => reprV v

/-- Python truthiness, used by `if` tests. -/
def truthy : Value → Bool
  | Value.none => false
  | Value.int n => n != 0
  | Value.bool b => b
  | Value.str s => s != ""
  | Value.list vs => !vs.isEmpty
  | Value.tuple vs => !vs.isEmpty
  | Value.closure _ _ _ _ _ => true
  | Value.decorator _ _ => true

/-- Comparison evaluation (`ast.Compare` with a single operator). -/
def cmpValues : CmpOp → Value → Value → Option Bool
  | CmpOp.lt, Value.int a, Value.int b => some (decide (a < b))
  | CmpOp.gt, Value.int a, Value.int b => some (decide (a > b))
  | _, _, _ => none

/-! ## `ast.unparse` on the fragment

Used by the transformer to build the textual loop descriptions
(`visit_For`) and condition texts (`visit_If`). -/

mutual

def unparse : Exp → String
  | Exp.name x => x
  | Exp.constInt n => toString n
  | Exp.constStr s => "'" ++ s ++ "'"
  | Exp.constBool true => "True"
  | Exp.constBool false => "False"
  | Exp.constNone => "None"
  | Exp.listE es => "[" ++ unparseList es ++ "]"
  | Exp.tupleE [e] => "(" ++ unparse e ++ ",)"
  | Exp.tupleE es => "(" ++ unparseList es ++ ")"
  | Exp.call f args kwargs =>
      f ++ "(" ++ unparseList args ++
        (match args, kwargs with
         | _, [] => ""
         | [], _ => unparseKwList kwargs
         | _, _ => ", " ++ unparseKwList kwargs) ++ ")"
  | Exp.compare CmpOp.lt a b => unparse a ++ " < " ++ unparse b
  | Exp.compare CmpOp.gt a b => unparse a ++ " > " ++ unparse b

def unparseList : List Exp → String
  | [] => ""
  | [e] => unparse e
  | e :: rest => unparse e ++ ", " ++ unparseList rest

def unparseKwList : List (String × Exp) → String
  | [] => ""
  | [(k, e)] => k ++ "=" ++ unparse e
  | (k, e) :: rest => k ++ "=" ++ unparse e ++ ", " ++ unparseKwList rest

end

/-! ## Flow Graph Builder (`DebugFlowVisualizer`)

The graphviz `Digraph` is modelled by its node and edge lists; the
`loop_stack` attribute of the source class is never read or written
anywhere in the program and is omitted. -/

structure DotNode where
  nid : String
  label : String
  shape : String
deriving Repr, DecidableEq

structure Visualizer where
  nodes : List DotNode
  edges : List (String × String)
  node_count : Nat
  current_function : Option String
  execution_path : List String
deriving Repr, DecidableEq

def initVisualizer : Visualizer :=
  { nodes := [], edges := [], node_count := 0,
    current_function := none, execution_path := [] }

/-- `DebugFlowVisualizer.add_node`: allocate the id `node_{count}`,
append the result to the label when present, create the node, bump the
counter, draw an edge from the last node of `execution_path` when one
exists, and append the new id to the path. Returns the new id. -/
def Visualizer.add_node (v : Visualizer) (label : String)
    (result : Option Value) (shape : String) : Visualizer × String :=
  let node_id := "node_" ++ toString v.node_count
  let label := match result with
    | some r => label ++ "\nResult: " ++ pyStr r
    | none => label
  let nodes := v.nodes ++ [{ nid := node_id, label := label, shape := shape }]
  let node_count := v.node_count + 1
  let edges := match v.execution_path.getLast? with
    | some prev => v.edges ++ [(prev, node_id)]
    | none => v.edges
  ({ nodes := nodes, edges := edges, node_count := node_count,
     current_function := v.current_function,
     execution_path := v.execution_path ++ [node_id] }, node_id)

/-- `DebugFlowVisualizer.start_function`: record the current function,
then add the entry node; keyword arguments are joined before the
positional ones, exactly as in the source's `args_str`. -/
def Visualizer.start_function (v : Visualizer) (func_name : String)
    (args : List Value) (kwargs : List (String × Value)) : Visualizer :=
  let v := { v with current_function := some func_name }
  let args_str := ", ".intercalate
    (kwargs.map (fun kv => kv.1 ++ "=" ++ reprV kv.2) ++ args.map reprV)
  (v.add_node ("Function: " ++ func_name ++ "(" ++ args_str ++ ")") none "ellipse").1

/-- `DebugFlowVisualizer.end_function`. -/
def Visualizer.end_function (v : Visualizer) (result : Value) : Visualizer :=
  let v := (v.add_node ("Return: " ++ reprV result) none "diamond").1
  { v with current_function := none }

/-- `DebugFlowVisualizer.start_loop`. -/
def Visualizer.start_loop (v : Visualizer) (loop_info : String) : Visualizer :=
  (v.add_node ("Loop Start: " ++ loop_info) none "parallelogram").1

/-- `DebugFlowVisualizer.loop_iteration` (f-string interpolation uses
`str`, not `repr`). -/
def Visualizer.loop_iteration (v : Visualizer) (iteration : Value) : Visualizer :=
  (v.add_node ("Loop Iteration: " ++ pyStr iteration) none "parallelogram").1

/-- `DebugFlowVisualizer.end_loop`. -/
def Visualizer.end_loop (v : Visualizer) : Visualizer :=
  (v.add_node "Loop End" none "parallelogram").1

/-- `DebugFlowVisualizer.add_condition`. Reachable only through the
inner wrapper of the `debug_condition` decorator, which the generated
code never invokes. -/
def Visualizer.add_condition (v : Visualizer) (condition : String)
    (result : Value) : Visualizer :=
  (v.add_node ("Condition: " ++ condition) (some result) "diamond").1

/-- `DebugFlowVisualizer.add_variable`. -/
def Visualizer.add_variable (v : Visualizer) (var_name : String)
    (value : Value) : Visualizer :=
  (v.add_node ("Variable: " ++ var_name ++ " = " ++ reprV value) none "plaintext").1

/-- `DebugFlowVisualizer.add_print`. -/
def Visualizer.add_print (v : Visualizer) (content : String) : Visualizer :=
  (v.add_node ("Print: " ++ content) none "oval").1

/-- `DebugFlowVisualizer.add_if_branch`. -/
def Visualizer.add_if_branch (v : Visualizer) (condition branch : String) : Visualizer :=
  (v.add_node ("If Branch: " ++ condition ++ "\nTaken: " ++ branch) none "diamond").1

/-! ## Runtime API (the module-level `debug_*` entry points)

Process state threaded through an instrumented run: the singleton
visualizer, the text written to standard output, and a ghost log of the
Runtime API entry-point invocations that actually executed. The log has
no counterpart in the source (it mirrors the calls the source makes);
it is used only to state theorems that count executed reports. -/

inductive Event where
  | funcEnter
  | funcExit
  | loopStart
  | loopIter
  | loopEnd
  | condReport
  | ifBranch
  | varBound
  | printReport
deriving Repr, DecidableEq

structure PState where
  viz : Visualizer
  output : String
  events : List Event
  /-- The heap address the process will hand to the next function
  object it creates. Its starting value is chosen by the runtime's
  allocator, outside the program: two separate sessions generally start
  from different values. -/
  next_addr : Nat
deriving Repr, DecidableEq

def initState : PState :=
  { viz := initVisualizer, output := "", events := [], next_addr := 0 }

/-- Sequencing for partial stateful computations (`none` models an
exception or a run that does not finish; it propagates). -/
def mbind {α β : Type} (o : Option (α × PState))
    (f : α → PState → Option (β × PState)) : Option (β × PState) :=
  match o with
  | none => none
  | some (a, st) => f a st

/-- Look up a keyword argument. -/
def lookupKw (kwargs : List (String × Value)) (k : String) : Option Value :=
  (kwargs.find? (fun kv => kv.1 == k)).map (fun kv => kv.2)

/-- The effect of the built-in `print(*args, **kwargs)` on the output
stream: arguments rendered with `str`, joined by `sep` (default a
space), terminated by `end` (default a newline). The `file` keyword
(an alternative stream target) is outside the model; all output goes to
the single modelled stream. -/
def py_print (args : List Value) (kwargs : List (String × Value))
    (out : String) : String :=
  let sep := match lookupKw kwargs "sep" with
    | some (Value.str s) => s
    | _ => " "
  let endS := match lookupKw kwargs "end" with
    | some (Value.str s) => s
    | _ => "\n"
  out ++ sep.intercalate (args.map pyStr) ++ endS

/-- `debug_loop(loop_info)`. -/
def debug_loop (loop_info : String) (st : PState) : PState :=
  { st with viz := st.viz.start_loop loop_info,
            events := st.events ++ [Event.loopStart] }

/-- `debug_loop_iteration(iteration)`. -/
def debug_loop_iteration (iteration : Value) (st : PState) : PState :=
  { st with viz := st.viz.loop_iteration iteration,
            events := st.events ++ [Event.loopIter] }

/-- `debug_loop_end()`. -/
def debug_loop_end (st : PState) : PState :=
  { st with viz := st.viz.end_loop,
            events := st.events ++ [Event.loopEnd] }

/-- `debug_condition(condition)`: the source function only builds and
returns a fresh decorator closure. Nothing is reported to the
visualizer at call time; `add_condition` would run only if the returned
decorator were later applied to a function and that wrapper called,
which the generated code never does. The ghost log still records that
this entry point executed. -/
def debug_condition (condition : String) (st : PState) : Value × PState :=
  (Value.decorator condition st.next_addr,
   { st with events := st.events ++ [Event.condReport],
             next_addr := st.next_addr + 1 })

/-- `debug_variable(var_name, value)`. -/
def debug_variable (var_name : String) (value : Value) (st : PState) : PState :=
  { st with viz := st.viz.add_variable var_name value,
            events := st.events ++ [Event.varBound] }

/-- `debug_print(*args, **kwargs)`: report the space-joined `repr`s of
the positional arguments, then perform the real `print` with the
original arguments and keyword arguments. -/
def debug_print (args : List Value) (kwargs : List (String × Value))
    (st : PState) : PState :=
  let content := " ".intercalate (args.map reprV)
  let st := { st with viz := st.viz.add_print content,
                      events := st.events ++ [Event.printReport] }
  { st with output := py_print args kwargs st.output }

/-- `debug_if_branch(condition, branch)`. -/
def debug_if_branch (condition branch : String) (st : PState) : PState :=
  { st with viz := st.viz.add_if_branch condition branch,
            events := st.events ++ [Event.ifBranch] }

/-- The `wrapper` closure produced by the `debug_function` decorator:
report (function name, positional arguments, keyword arguments), run
the original function body, report the return value, and pass the
result through unchanged. A body that fails (here: `none`) propagates
without reaching the exit report, matching exception propagation. -/
def debug_function (fname : String)
    (body : PState → Option (Value × PState))
    (args : List Value) (kwargs : List (String × Value))
    (st : PState) : Option (Value × PState) :=
  mbind (body { st with viz := st.viz.start_function fname args kwargs,
                        events := st.events ++ [Event.funcEnter] })
    (fun result st2 =>
      some (result,
        { st2 with viz := st2.viz.end_function result,
                   events := st2.events ++ [Event.funcExit] }))

/-! ## Tree Transformer (`DebugTransformer`)

`ast.NodeTransformer` dispatches `visit` per node class and falls back
to `generic_visit`, which rewrites the children. A `visit_XYZ` method
that does not itself call `generic_visit` therefore stops the traversal
below its node. Consequences modelled here, read off the source:

* `visit_Call` rewrites a `print` call into a `debug_print` call but
  never descends into the call's arguments (whether or not the callee
  is `print`);
* `visit_Assign` returns `[node, debug_variable(...)]` without calling
  `generic_visit`, so the assigned value expression is never visited;
* expressions reached through nodes that have no visitor (expression
  statements, tests, return values, iterables, list/tuple/comparison
  children) are visited.
-/

mutual

/-- The expression traversal: `generic_visit` recursion through node
kinds without a visitor, with `visit_Call` applied at every `ast.Call`
(which then stops, leaving its arguments unvisited). -/
def visitExp : Exp → Exp
  | Exp.name x => Exp.name x
  | Exp.constInt n => Exp.constInt n
  | Exp.constStr s => Exp.constStr s
  | Exp.constBool b => Exp.constBool b
  | Exp.constNone => Exp.constNone
  | Exp.listE es => Exp.listE (visitExpList es)
  | Exp.tupleE es => Exp.tupleE (visitExpList es)
  | Exp.call f args kwargs =>
      if f = "print" then Exp.call "debug_print" args kwargs
      else Exp.call f args kwargs
  | Exp.compare op a b => Exp.compare op (visitExp a) (visitExp b)

def visitExpList : List Exp → List Exp
  | [] => []
  | e :: rest => visitExp e :: visitExpList rest

end

mutual

/-- Statement dispatch of the transformer. `visit_Assign` may return a
pair of statements, and `generic_visit` splices such lists into the
parent body, hence the `List Stmt` result. The debug-report statements
inserted by `visit_For` and `visit_If` are written here in their final
form: the source inserts them before calling `generic_visit`, but
visiting them is the identity (their callees are `debug_*` names, not
`print`, and their arguments are constants or a bare name). -/
def transformStmt : Stmt → List Stmt
  | Stmt.exprStmt e => [Stmt.exprStmt (visitExp e)]
  | Stmt.assign targets value =>
      match targets.head? with
      | some (Target.name x) =>
          [Stmt.assign targets value,
           Stmt.exprStmt (Exp.call "debug_variable"
             [Exp.constStr x, Exp.name x] [])]
      | _ => [Stmt.assign targets value]
  | Stmt.forLoop t it body =>
      let loop_info := t ++ " in " ++ unparse it
      [Stmt.forLoop t (visitExp it)
        ([Stmt.exprStmt (Exp.call "debug_loop" [Exp.constStr loop_info] []),
          Stmt.exprStmt (Exp.call "debug_loop_iteration" [Exp.name t] [])]
         ++ transformStmtList body
         ++ [Stmt.exprStmt (Exp.call "debug_loop_end" [] [])])]
  | Stmt.ifStmt test body orelse =>
      let condition := unparse test
      [Stmt.ifStmt (visitExp test)
        ([Stmt.exprStmt (Exp.call "debug_condition" [Exp.constStr condition] []),
          Stmt.exprStmt (Exp.call "debug_if_branch"
            [Exp.constStr condition, Exp.constStr "True"] [])]
         ++ transformStmtList body)
        (match orelse with
         | [] => []
         | _ => Stmt.exprStmt (Exp.call "debug_if_branch"
                  [Exp.constStr condition, Exp.constStr "False"] [])
                :: transformStmtList orelse)]
  | Stmt.funcDef f ps body _ =>
      [Stmt.funcDef f ps (transformStmtList body) true]
  | Stmt.ret e => [Stmt.ret (visitExp e)]

def transformStmtList : List Stmt → List Stmt
  | [] => []
  | s :: rest => transformStmt s ++ transformStmtList rest

end

/-! ## Execution of the (instrumented) program

A small-step-free, fuel-indexed big-step interpreter for the fragment.
`none` covers both fuel exhaustion and a Python runtime error (both
abort the run; wrappers never swallow either). -/

abbrev Env := List (String × Value)

def lookupEnv (env : Env) (x : String) : Option Value :=
  (env.find? (fun kv => kv.1 == x)).map (fun kv => kv.2)

def envSet (env : Env) (x : String) (v : Value) : Env :=
  (x, v) :: env

/-- Statement outcome: fall through with the (possibly rebound)
environment, or return a value from the enclosing function. -/
inductive Flow where
  | next (env : Env)
  | ret (v : Value)

/-- The value a call produces: an executed `return e` yields `e`,
falling off the end of the body yields `None`. -/
def flowValue : Flow → Value
  | Flow.next _ => Value.none
  | Flow.ret v => v

/-- Perform one assignment statement's bindings: each target in turn is
bound to the value. Bare names rebind; tuple targets destructure a list
or tuple of matching length; attribute and subscript stores mutate heap
objects, which are outside the model. -/
def bindTargets (env : Env) (targets : List Target) (v : Value) : Option Env :=
  match targets with
  | [] => some env
  | Target.name x :: rest => bindTargets (envSet env x v) rest v
  | Target.tupleT xs :: rest =>
      match v with
      | Value.list vs =>
          if xs.length = vs.length then
            bindTargets ((xs.zip vs).foldl (fun e kv => envSet e kv.1 kv.2) env) rest v
          else none
      | Value.tuple vs =>
          if xs.length = vs.length then
            bindTargets ((xs.zip vs).foldl (fun e kv => envSet e kv.1 kv.2) env) rest v
          else none
      | _ => none
  | Target.attr _ _ :: _ => none
  | Target.subscript _ _ :: _ => none

mutual

def evalExp : Nat → Env → Exp → PState → Option (Value × PState)
  | 0, _, _, _ => none
  | Nat.succ n, env, e, st =>
    match e with
    | Exp.name x =>
        match lookupEnv env x with
        | some v => some (v, st)
        | none => none
    | Exp.constInt i => some (Value.int i, st)
    | Exp.constStr s => some (Value.str s, st)
    | Exp.constBool b => some (Value.bool b, st)
    | Exp.constNone => some (Value.none, st)
    | Exp.listE es =>
        mbind (evalExpList n env es st) (fun vs st => some (Value.list vs, st))
    | Exp.tupleE es =>
        mbind (evalExpList n env es st) (fun vs st => some (Value.tuple vs, st))
    | Exp.compare op a b =>
        mbind (evalExp n env a st) (fun va st =>
          mbind (evalExp n env b st) (fun vb st =>
            match cmpValues op va vb with
            | some r => some (Value.bool r, st)
            | none => none))
    | Exp.call f args kwargs =>
        mbind (evalExpList n env args st) (fun vals st =>
          mbind (evalKwList n env kwargs st) (fun kwvals st =>
            callFn n env f vals kwvals st))

def evalExpList : Nat → Env → List Exp → PState → Option (List Value × PState)
  | 0, _, _, _ => none
  | Nat.succ n, env, es, st =>
    match es with
    | [] => some ([], st)
    | e :: rest =>
        mbind (evalExp n env e st) (fun v st =>
          mbind (evalExpList n env rest st) (fun vs st =>
            some (v :: vs, st)))

def evalKwList : Nat → Env → List (String × Exp) → PState →
    Option (List (String × Value) × PState)
  | 0, _, _, _ => none
  | Nat.succ n, env, kws, st =>
    match kws with
    | [] => some ([], st)
    | (k, e) :: rest =>
        mbind (evalExp n env e st) (fun v st =>
          mbind (evalKwList n env rest st) (fun kvs st =>
            some ((k, v) :: kvs, st)))

/-- Apply a callee, by name, to evaluated arguments. The `debug_*`
names resolve to the Runtime API entry points the instrumented module
defines; `print` is the builtin; anything else is looked up in the
environment and must be a function the program defined. A function
whose `def` carries the `debug_function` decoration runs through the
reporting wrapper. -/
def callFn : Nat → Env → String → List Value → List (String × Value) →
    PState → Option (Value × PState)
  | 0, _, _, _, _, _ => none
  | Nat.succ n, env, f, vals, kwvals, st =>
    if f = "debug_loop" then
      match vals with
      | [Value.str loop_info] => some (Value.none, debug_loop loop_info st)
      | _ => none
    else if f = "debug_loop_iteration" then
      match vals with
      | [v] => some (Value.none, debug_loop_iteration v st)
      | _ => none
    else if f = "debug_loop_end" then
      match vals with
      | [] => some (Value.none, debug_loop_end st)
      | _ => none
    else if f = "debug_condition" then
      match vals with
      | [Value.str c] => some (debug_condition c st)
      | _ => none
    else if f = "debug_if_branch" then
      match vals with
      | [Value.str c, Value.str b] => some (Value.none, debug_if_branch c b st)
      | _ => none
    else if f = "debug_variable" then
      match vals with
      | [Value.str x, v] => some (Value.none, debug_variable x v st)
      | _ => none
    else if f = "debug_print" then
      some (Value.none, debug_print vals kwvals st)
    else if f = "print" then
      some (Value.none, { st with output := py_print vals kwvals st.output })
    else
      match lookupEnv env f with
      | some (Value.closure fname params body decorated _) =>
          let localEnv := params.zip vals ++ kwvals ++ env
          if decorated then
            debug_function fname
              (fun s => mbind (execStmtList n localEnv body s)
                (fun flow s => some (flowValue flow, s)))
              vals kwvals st
          else
            mbind (execStmtList n localEnv body st)
              (fun flow s => some (flowValue flow, s))
      | _ => none

def execStmt : Nat → Env → Stmt → PState → Option (Flow × PState)
  | 0, _, _, _ => none
  | Nat.succ n, env, s, st =>
    match s with
    | Stmt.exprStmt e =>
        mbind (evalExp n env e st) (fun _ st => some (Flow.next env, st))
    | Stmt.assign targets value =>
        mbind (evalExp n env value st) (fun v st =>
          match bindTargets env targets v with
          | some env2 => some (Flow.next env2, st)
          | none => none)
    | Stmt.forLoop t it body =>
        mbind (evalExp n env it st) (fun v st =>
          match v with
          | Value.list vs => execFor n env t vs body st
          | Value.tuple vs => execFor n env t vs body st
          | _ => none)
    | Stmt.ifStmt test body orelse =>
        mbind (evalExp n env test st) (fun v st =>
          if truthy v then execStmtList n env body st
          else execStmtList n env orelse st)
    | Stmt.funcDef f ps body dec =>
        some (Flow.next (envSet env f (Value.closure f ps body dec st.next_addr)),
              { st with next_addr := st.next_addr + 1 })
    | Stmt.ret e =>
        mbind (evalExp n env e st) (fun v st => some (Flow.ret v, st))

def execStmtList : Nat → Env → List Stmt → PState → Option (Flow × PState)
  | 0, _, _, _ => none
  | Nat.succ n, env, l, st =>
    match l with
    | [] => some (Flow.next env, st)
    | s :: rest =>
        mbind (execStmt n env s st) (fun flow st =>
          match flow with
          | Flow.ret v => some (Flow.ret v, st)
          | Flow.next env2 => execStmtList n env2 rest st)

def execFor : Nat → Env → String → List Value → List Stmt → PState →
    Option (Flow × PState)
  | 0, _, _, _, _, _ => none
  | Nat.succ n, env, t, vs, body, st =>
    match vs with
    | [] => some (Flow.next env, st)
    | v :: rest =>
        mbind (execStmtList n (envSet env t v) body st) (fun flow st =>
          match flow with
          | Flow.ret rv => some (Flow.ret rv, st)
          | Flow.next env2 => execFor n env2 t rest body st)

end

/-! ## `DebugFlowVisualizer.instrument_file` and run observers -/

/-- `instrument_file`: a parse failure propagates before any
transformation or execution, leaving the process state untouched; a
parsed module is transformed and the regenerated code executed against
the current state (`exec(modified_code, globals())`). The first
component is the outcome, the second the process state afterwards
(`none` from the interpreter models a run that did not complete and
yields no final state to report, so the pre-run state is returned). -/
def instrument_file (parsed : Except String (List Stmt)) (fuel : Nat)
    (env : Env) (st : PState) : Except String (Option Flow) × PState :=
  match parsed with
  | Except.error msg => (Except.error msg, st)
  | Except.ok tree =>
      match execStmtList fuel env (transformStmtList tree) st with
      | none => (Except.ok none, st)
      | some (flow, st2) => (Except.ok (some flow), st2)

/-- Instrument a program and run it from a fresh session. -/
def runInstrumented (p : List Stmt) (fuel : Nat) : Option (Flow × PState) :=
  execStmtList fuel [] (transformStmtList p) initState

def vizLabels (v : Visualizer) : List String := v.nodes.map DotNode.label

/-- Labels of the graph built by an instrumented run. -/
def runLabels (p : List Stmt) (fuel : Nat) : Option (List String) :=
  (runInstrumented p fuel).map (fun r => vizLabels r.2.viz)

/-- Node count of the graph built by an instrumented run. -/
def runNodeCount (p : List Stmt) (fuel : Nat) : Option Nat :=
  (runInstrumented p fuel).map (fun r => r.2.viz.node_count)

/-- Edges of the graph built by an instrumented run. -/
def runEdges (p : List Stmt) (fuel : Nat) : Option (List (String × String)) :=
  (runInstrumented p fuel).map (fun r => r.2.viz.edges)

/-- Number of Runtime API entry-point invocations an instrumented run
executed. -/
def runEventCount (p : List Stmt) (fuel : Nat) : Option Nat :=
  (runInstrumented p fuel).map (fun r => r.2.events.length)

/-- Standard-output text of an instrumented run. -/
def runOutput (p : List Stmt) (fuel : Nat) : Option String :=
  (runInstrumented p fuel).map (fun r => r.2.output)

/-- Standard-output text of the original, uninstrumented program. -/
def runPlainOutput (p : List Stmt) (fuel : Nat) : Option String :=
  (execStmtList fuel [] p initState).map (fun r => r.2.output)

/-! ## The linear-chain invariant of `add_node` -/

/-- The identifier `add_node` allocates for the `k`-th created node. -/
def mkId (k : Nat) : String := "node_" ++ toString k

/-- The edge list of a single simple path through the first `n` nodes
in creation order. -/
def chainEdges (n : Nat) : List (String × String) :=
  (List.range (n - 1)).map (fun i => (mkId i, mkId (i + 1)))

/-- Run a sequence of `add_node` calls (label, result, shape). -/
def addNodeCalls (calls : List (String × Option Value × String))
    (v : Visualizer) : Visualizer :=
  calls.foldl (fun w c => (w.add_node c.1 c.2.1 c.2.2).1) v

/-- The session invariant after `k` `add_node` calls: the counter is at
`k`, the nodes carry the identifiers `node_0 … node_{k-1}` in creation
order, the edges form the single path through them, and the execution
path records them all. -/
def goodViz (k : Nat) (v : Visualizer) : Prop :=
  v.node_count = k ∧
  v.nodes.map DotNode.nid = (List.range k).map mkId ∧
  v.edges = chainEdges k ∧
  v.execution_path = (List.range k).map mkId

theorem goodViz_init : goodViz 0 initVisualizer :=
  ⟨rfl, rfl, rfl, rfl⟩

theorem goodViz_add_node {k : Nat} {v : Visualizer} (h : goodViz k v)
    (label : String) (result : Option Value) (shape : String) :
    goodViz (k + 1) (v.add_node label result shape).1 := by
  obtain ⟨hc, hn, he, hp⟩ := h
  refine ⟨?_, ?_, ?_, ?_⟩
  · simp [Visualizer.add_node, hc]
  · simp [Visualizer.add_node, hn, hc, List.range_succ, mkId]
  · cases k with
    | zero =>
      have hp0 : v.execution_path = [] := by simpa using hp
      simp [Visualizer.add_node, hp0, he, hc, chainEdges]
    | succ j =>
      have hp2 : v.execution_path = (List.range j).map mkId ++ [mkId j] := by
        simpa [List.range_succ] using hp
      have hce : chainEdges (j + 1 + 1) =
          chainEdges (j + 1) ++ [(mkId j, mkId (j + 1))] := by
        simp [chainEdges, List.range_succ]
      simp [Visualizer.add_node, hp2, he, hc, hce, mkId]
  · simp [Visualizer.add_node, hp, hc, List.range_succ, mkId]

theorem goodViz_addNodeCalls :
    ∀ (calls : List (String × Option Value × String)) {k : Nat}
      {v : Visualizer}, goodViz k v →
      goodViz (k + calls.length) (addNodeCalls calls v)
  | [], _, _, h => by simpa [addNodeCalls] using h
  | c :: cs, k, v, h => by
    have h2 := goodViz_addNodeCalls cs (goodViz_add_node h c.1 c.2.1 c.2.2)
    have hk : k + (c :: cs).length = k + 1 + cs.length := by
      simp only [List.length_cons]
      omega
    rw [hk]
    simpa [addNodeCalls] using h2

/-! ## Determinism of emitted labels, modulo the address allocator

Two executions of the same (instrumented) code from two process states
that agree on the allocator position emit the same sequence of labels,
fail or finish together, and compute the same values: each graph label
is a function of the reported names, argument values, textual
expression forms and the session's function-object addresses — never
of the pre-existing graph. The allocator hypothesis is necessary: the
`repr` of a function object embeds its heap address, and `repr` output
flows into labels (see the C9 counterexample below). -/

/-- Two outcomes agree: both fail, or both succeed with equal results,
allocator positions still in step, after appending one and the same
label sequence to their respective starting states. -/
def SameEmission {α : Type} (st₁ st₂ : PState) :
    Option (α × PState) → Option (α × PState) → Prop
  | none, none => True
  | some (a₁, t₁), some (a₂, t₂) =>
      a₁ = a₂ ∧ t₁.next_addr = t₂.next_addr ∧
      ∃ d, vizLabels t₁.viz = vizLabels st₁.viz ++ d ∧
           vizLabels t₂.viz = vizLabels st₂.viz ++ d
  | _, _ => False

theorem sameEmission_pure {α : Type} (st₁ st₂ : PState) (a : α)
    (h : st₁.next_addr = st₂.next_addr) :
    SameEmission st₁ st₂ (some (a, st₁)) (some (a, st₂)) :=
  ⟨rfl, h, [], by simp, by simp⟩

/-- A step that appends a fixed label block (independent of the state
it starts from) and leaves the allocator alone preserves agreement. -/
theorem sameEmission_emit {α : Type} (st₁ st₂ : PState) (a : α)
    (f : PState → PState) (d : List String)
    (hf : ∀ st, vizLabels (f st).viz = vizLabels st.viz ++ d)
    (haddr : ∀ st, (f st).next_addr = st.next_addr)
    (h : st₁.next_addr = st₂.next_addr) :
    SameEmission st₁ st₂ (some (a, f st₁)) (some (a, f st₂)) :=
  ⟨rfl, by rw [haddr, haddr, h], d, hf st₁, hf st₂⟩

/-- Agreement relative to later states lifts to earlier states whose
label lists the later ones extend by a common block. -/
theorem sameEmission_mono {α : Type} {st₁ st₂ t₁ t₂ : PState}
    {d : List String}
    (h₁ : vizLabels t₁.viz = vizLabels st₁.viz ++ d)
    (h₂ : vizLabels t₂.viz = vizLabels st₂.viz ++ d)
    {o₁ o₂ : Option (α × PState)}
    (h : SameEmission t₁ t₂ o₁ o₂) :
    SameEmission st₁ st₂ o₁ o₂ := by
  cases o₁ with
  | none =>
    cases o₂ with
    | none => trivial
    | some q => obtain ⟨b₂, u₂⟩ := q; exact h.elim
  | some p =>
    obtain ⟨b₁, u₁⟩ := p
    cases o₂ with
    | none => exact h.elim
    | some q =>
      obtain ⟨b₂, u₂⟩ := q
      obtain ⟨hb, ha, d₂, g₁, g₂⟩ := h
      exact ⟨hb, ha, d ++ d₂, by rw [g₁, h₁, List.append_assoc],
             by rw [g₂, h₂, List.append_assoc]⟩

/-- Sequencing preserves agreement when the continuation does, from any
pair of intermediate states with allocators in step. -/
theorem sameEmission_bind {α β : Type} {st₁ st₂ : PState}
    {o₁ o₂ : Option (α × PState)}
    {f : α → PState → Option (β × PState)}
    (h : SameEmission st₁ st₂ o₁ o₂)
    (hf : ∀ (a : α) (m₁ m₂ : PState), m₁.next_addr = m₂.next_addr →
      SameEmission m₁ m₂ (f a m₁) (f a m₂)) :
    SameEmission st₁ st₂ (mbind o₁ f) (mbind o₂ f) := by
  cases o₁ with
  | none =>
    cases o₂ with
    | none => trivial
    | some q => obtain ⟨a₂, t₂⟩ := q; exact h.elim
  | some p =>
    obtain ⟨a₁, t₁⟩ := p
    cases o₂ with
    | none => exact h.elim
    | some q =>
      obtain ⟨a₂, t₂⟩ := q
      obtain ⟨hb, ha, d, g₁, g₂⟩ := h
      cases hb
      exact sameEmission_mono g₁ g₂ (hf a₁ t₁ t₂ ha)

/-! Label blocks appended by each Runtime API entry point. -/

theorem vizLabels_add_node (v : Visualizer) (label : String)
    (result : Option Value) (shape : String) :
    vizLabels (v.add_node label result shape).1 = vizLabels v ++
      [match result with
       | some r => label ++ "\nResult: " ++ pyStr r
       | none => label] := by
  cases result <;> simp [Visualizer.add_node, vizLabels]

theorem emit_debug_loop (loop_info : String) (st : PState) :
    vizLabels (debug_loop loop_info st).viz =
      vizLabels st.viz ++ ["Loop Start: " ++ loop_info] := by
  simp [debug_loop, Visualizer.start_loop, vizLabels_add_node]

theorem emit_debug_loop_iteration (v : Value) (st : PState) :
    vizLabels (debug_loop_iteration v st).viz =
      vizLabels st.viz ++ ["Loop Iteration: " ++ pyStr v] := by
  simp [debug_loop_iteration, Visualizer.loop_iteration, vizLabels_add_node]

theorem emit_debug_loop_end (st : PState) :
    vizLabels (debug_loop_end st).viz = vizLabels st.viz ++ ["Loop End"] := by
  simp [debug_loop_end, Visualizer.end_loop, vizLabels_add_node]

theorem emit_debug_if_branch (c b : String) (st : PState) :
    vizLabels (debug_if_branch c b st).viz =
      vizLabels st.viz ++ ["If Branch: " ++ c ++ "\nTaken: " ++ b] := by
  simp [debug_if_branch, Visualizer.add_if_branch, vizLabels_add_node]

theorem emit_debug_variable (x : String) (v : Value) (st : PState) :
    vizLabels (debug_variable x v st).viz =
      vizLabels st.viz ++ ["Variable: " ++ x ++ " = " ++ reprV v] := by
  simp [debug_variable, Visualizer.add_variable, vizLabels_add_node]

theorem emit_debug_print (args : List Value) (kwargs : List (String × Value))
    (st : PState) :
    vizLabels (debug_print args kwargs st).viz =
      vizLabels st.viz ++ ["Print: " ++ " ".intercalate (args.map reprV)] := by
  simp [debug_print, Visualizer.add_print, vizLabels_add_node]

theorem emit_start_function (fname : String) (args : List Value)
    (kwargs : List (String × Value)) (v : Visualizer) :
    vizLabels (v.start_function fname args kwargs) = vizLabels v ++
      ["Function: " ++ fname ++ "(" ++ ", ".intercalate
        (kwargs.map (fun kv => kv.1 ++ "=" ++ reprV kv.2) ++ args.map reprV) ++ ")"] := by
  unfold Visualizer.start_function
  rw [vizLabels_add_node]
  simp [vizLabels]

theorem emit_end_function (result : Value) (v : Visualizer) :
    vizLabels (v.end_function result) =
      vizLabels v ++ ["Return: " ++ reprV result] := by
  unfold Visualizer.end_function
  show vizLabels (v.add_node ("Return: " ++ reprV result) none "diamond").1 = _
  rw [vizLabels_add_node]

theorem sameEmission_debug_condition (st₁ st₂ : PState) (c : String)
    (h : st₁.next_addr = st₂.next_addr) :
    SameEmission st₁ st₂ (some (debug_condition c st₁))
      (some (debug_condition c st₂)) :=
  ⟨by simp [debug_condition, h], by simp [debug_condition, h],
   [], by simp [debug_condition], by simp [debug_condition]⟩

/-- The reporting wrapper preserves agreement whenever the wrapped body
does. -/
theorem sameEmission_debug_function (fname : String)
    (body : PState → Option (Value × PState))
    (hbody : ∀ m₁ m₂, m₁.next_addr = m₂.next_addr →
      SameEmission m₁ m₂ (body m₁) (body m₂))
    (args : List Value) (kwargs : List (String × Value)) (st₁ st₂ : PState)
    (h : st₁.next_addr = st₂.next_addr) :
    SameEmission st₁ st₂ (debug_function fname body args kwargs st₁)
      (debug_function fname body args kwargs st₂) := by
  unfold debug_function
  exact sameEmission_bind
    (sameEmission_mono (emit_start_function fname args kwargs st₁.viz)
      (emit_start_function fname args kwargs st₂.viz) (hbody _ _ h))
    (fun result m₁ m₂ hm =>
      sameEmission_emit m₁ m₂ result
        (fun m => { m with viz := m.viz.end_function result,
                           events := m.events ++ [Event.funcExit] })
        ["Return: " ++ reprV result] (fun m => emit_end_function result m.viz)
        (fun m => rfl) hm)

/-- Master lemma: at every fuel level, every interpreter entry point
emits the same labels, produces the same value and succeeds or fails
identically, from any two starting process states whose allocators
agree. -/
theorem emission_state_independent : ∀ fuel : Nat,
    (∀ env e st₁ st₂, st₁.next_addr = st₂.next_addr →
      SameEmission st₁ st₂ (evalExp fuel env e st₁) (evalExp fuel env e st₂)) ∧
    (∀ env es st₁ st₂, st₁.next_addr = st₂.next_addr →
      SameEmission st₁ st₂ (evalExpList fuel env es st₁) (evalExpList fuel env es st₂)) ∧
    (∀ env kws st₁ st₂, st₁.next_addr = st₂.next_addr →
      SameEmission st₁ st₂ (evalKwList fuel env kws st₁) (evalKwList fuel env kws st₂)) ∧
    (∀ env f vals kwvals st₁ st₂, st₁.next_addr = st₂.next_addr →
      SameEmission st₁ st₂ (callFn fuel env f vals kwvals st₁)
        (callFn fuel env f vals kwvals st₂)) ∧
    (∀ env s st₁ st₂, st₁.next_addr = st₂.next_addr →
      SameEmission st₁ st₂ (execStmt fuel env s st₁) (execStmt fuel env s st₂)) ∧
    (∀ env l st₁ st₂, st₁.next_addr = st₂.next_addr →
      SameEmission st₁ st₂ (execStmtList fuel env l st₁) (execStmtList fuel env l st₂)) ∧
    (∀ env t vs body st₁ st₂, st₁.next_addr = st₂.next_addr →
      SameEmission st₁ st₂ (execFor fuel env t vs body st₁)
        (execFor fuel env t vs body st₂)) := by
  intro fuel
  induction fuel with
  | zero =>
    refine ⟨?_, ?_, ?_, ?_, ?_, ?_, ?_⟩ <;> intros <;> trivial
  | succ n ih =>
    obtain ⟨ihE, ihEL, ihKL, ihC, ihS, ihSL, ihF⟩ := ih
    refine ⟨?_, ?_, ?_, ?_, ?_, ?_, ?_⟩
    -- evalExp
    · intro env e st₁ st₂ hA
      cases e with
      | name x =>
        cases hx : lookupEnv env x with
        | none => simp only [evalExp, hx]; trivial
        | some v => simp only [evalExp, hx]; exact sameEmission_pure st₁ st₂ v hA
      | constInt i => exact sameEmission_pure st₁ st₂ (Value.int i) hA
      | constStr s => exact sameEmission_pure st₁ st₂ (Value.str s) hA
      | constBool b => exact sameEmission_pure st₁ st₂ (Value.bool b) hA
      | constNone => exact sameEmission_pure st₁ st₂ Value.none hA
      | listE es =>
        exact sameEmission_bind (ihEL env es st₁ st₂ hA)
          (fun vs m₁ m₂ hm => sameEmission_pure m₁ m₂ (Value.list vs) hm)
      | tupleE es =>
        exact sameEmission_bind (ihEL env es st₁ st₂ hA)
          (fun vs m₁ m₂ hm => sameEmission_pure m₁ m₂ (Value.tuple vs) hm)
      | compare op a b =>
        simp only [evalExp]
        refine sameEmission_bind (ihE env a st₁ st₂ hA) (fun va m₁ m₂ hm => ?_)
        refine sameEmission_bind (ihE env b m₁ m₂ hm) (fun vb k₁ k₂ hk => ?_)
        cases hc : cmpValues op va vb with
        | none => simp only [hc]; trivial
        | some r => simp only [hc]; exact sameEmission_pure k₁ k₂ (Value.bool r) hk
      | call f args kwargs =>
        simp only [evalExp]
        refine sameEmission_bind (ihEL env args st₁ st₂ hA) (fun vals m₁ m₂ hm => ?_)
        refine sameEmission_bind (ihKL env kwargs m₁ m₂ hm) (fun kwvals k₁ k₂ hk => ?_)
        exact ihC env f vals kwvals k₁ k₂ hk
    -- evalExpList
    · intro env es st₁ st₂ hA
      cases es with
      | nil => exact sameEmission_pure st₁ st₂ [] hA
      | cons e rest =>
        simp only [evalExpList]
        refine sameEmission_bind (ihE env e st₁ st₂ hA) (fun v m₁ m₂ hm => ?_)
        refine sameEmission_bind (ihEL env rest m₁ m₂ hm) (fun vs k₁ k₂ hk => ?_)
        exact sameEmission_pure k₁ k₂ (v :: vs) hk
    -- evalKwList
    · intro env kws st₁ st₂ hA
      cases kws with
      | nil => exact sameEmission_pure st₁ st₂ [] hA
      | cons p rest =>
        obtain ⟨k, e⟩ := p
        simp only [evalKwList]
        refine sameEmission_bind (ihE env e st₁ st₂ hA) (fun v m₁ m₂ hm => ?_)
        refine sameEmission_bind (ihKL env rest m₁ m₂ hm) (fun kvs k₁ k₂ hk => ?_)
        exact sameEmission_pure k₁ k₂ ((k, v) :: kvs) hk
    -- callFn
    · intro env f vals kwvals st₁ st₂ hA
      by_cases h1 : f = "debug_loop"
      · simp only [callFn, if_pos h1]
        rcases vals with _ | ⟨v, _ | ⟨w, rest⟩⟩
        · trivial
        · rcases v with _ | m | b | s | vs | vs | ⟨nm, ps, bd, dc, ad⟩ | ⟨c, ca⟩ <;>
            first
            | trivial
            | exact sameEmission_emit st₁ st₂ Value.none (debug_loop s)
                ["Loop Start: " ++ s] (emit_debug_loop s) (fun st => rfl) hA
        · rcases v with _ | m | b | s | vs | vs | ⟨nm, ps, bd, dc, ad⟩ | ⟨c, ca⟩ <;>
            trivial
      by_cases h2 : f = "debug_loop_iteration"
      · simp only [callFn, if_neg h1, if_pos h2]
        rcases vals with _ | ⟨v, _ | ⟨w, rest⟩⟩
        · trivial
        · exact sameEmission_emit st₁ st₂ Value.none (debug_loop_iteration v)
            ["Loop Iteration: " ++ pyStr v] (emit_debug_loop_iteration v)
            (fun st => rfl) hA
        · trivial
      by_cases h3 : f = "debug_loop_end"
      · simp only [callFn, if_neg h1, if_neg h2, if_pos h3]
        rcases vals with _ | ⟨v, rest⟩
        · exact sameEmission_emit st₁ st₂ Value.none debug_loop_end
            ["Loop End"] emit_debug_loop_end (fun st => rfl) hA
        · trivial
      by_cases h4 : f = "debug_condition"
      · simp only [callFn, if_neg h1, if_neg h2, if_neg h3, if_pos h4]
        rcases vals with _ | ⟨v, _ | ⟨w, rest⟩⟩
        · trivial
        · rcases v with _ | m | b | s | vs | vs | ⟨nm, ps, bd, dc, ad⟩ | ⟨c, ca⟩ <;>
            first
            | trivial
            | exact sameEmission_debug_condition st₁ st₂ s hA
        · rcases v with _ | m | b | s | vs | vs | ⟨nm, ps, bd, dc, ad⟩ | ⟨c, ca⟩ <;>
            trivial
      by_cases h5 : f = "debug_if_branch"
      · simp only [callFn, if_neg h1, if_neg h2, if_neg h3, if_neg h4, if_pos h5]
        rcases vals with _ | ⟨v, _ | ⟨w, _ | ⟨u, rest⟩⟩⟩
        · trivial
        · rcases v with _ | m | b | s | vs | vs | ⟨nm, ps, bd, dc, ad⟩ | ⟨c, ca⟩ <;>
            trivial
        · rcases v with _ | m | b | s | vs | vs | ⟨nm, ps, bd, dc, ad⟩ | ⟨c, ca⟩ <;>
            try trivial
          rcases w with _ | m | b | t | vs | vs | ⟨nm, ps, bd, dc, ad⟩ | ⟨c, ca⟩ <;>
            try trivial
          exact sameEmission_emit st₁ st₂ Value.none (debug_if_branch s t)
            ["If Branch: " ++ s ++ "\nTaken: " ++ t] (emit_debug_if_branch s t)
            (fun st => rfl) hA
        · rcases v with _ | m | b | s | vs | vs | ⟨nm, ps, bd, dc, ad⟩ | ⟨c, ca⟩ <;>
            try trivial
          rcases w with _ | m | b | t | vs | vs | ⟨nm, ps, bd, dc, ad⟩ | ⟨c, ca⟩ <;>
            trivial
      by_cases h6 : f = "debug_variable"
      · simp only [callFn, if_neg h1, if_neg h2, if_neg h3, if_neg h4,
          if_neg h5, if_pos h6]
        rcases vals with _ | ⟨v, _ | ⟨w, _ | ⟨u, rest⟩⟩⟩
        · trivial
        · rcases v with _ | m | b | s | vs | vs | ⟨nm, ps, bd, dc, ad⟩ | ⟨c, ca⟩ <;>
            trivial
        · rcases v with _ | m | b | s | vs | vs | ⟨nm, ps, bd, dc, ad⟩ | ⟨c, ca⟩ <;>
            first
            | trivial
            | exact sameEmission_emit st₁ st₂ Value.none (debug_variable s w)
                ["Variable: " ++ s ++ " = " ++ reprV w] (emit_debug_variable s w)
                (fun st => rfl) hA
        · rcases v with _ | m | b | s | vs | vs | ⟨nm, ps, bd, dc, ad⟩ | ⟨c, ca⟩ <;>
            trivial
      by_cases h7 : f = "debug_print"
      · simp only [callFn, if_neg h1, if_neg h2, if_neg h3, if_neg h4,
          if_neg h5, if_neg h6, if_pos h7]
        exact sameEmission_emit st₁ st₂ Value.none (debug_print vals kwvals)
          ["Print: " ++ " ".intercalate (vals.map reprV)] (emit_debug_print vals kwvals)
          (fun st => rfl) hA
      by_cases h8 : f = "print"
      · simp only [callFn, if_neg h1, if_neg h2, if_neg h3, if_neg h4,
          if_neg h5, if_neg h6, if_neg h7, if_pos h8]
        exact sameEmission_emit st₁ st₂ Value.none
          (fun st => { st with output := py_print vals kwvals st.output })
          [] (fun st => by simp [vizLabels]) (fun st => rfl) hA
      · simp only [callFn, if_neg h1, if_neg h2, if_neg h3, if_neg h4,
          if_neg h5, if_neg h6, if_neg h7, if_neg h8]
        cases hl : lookupEnv env f with
        | none =>
          try simp only [hl]
          trivial
        | some v =>
          try simp only [hl]
          rcases v with _ | m | b | s | vs | vs | ⟨fname, params, body, dec, ad⟩ |
            ⟨c, ca⟩ <;> try trivial
          cases dec with
          | true =>
            simp only [reduceIte]
            exact sameEmission_debug_function fname
              (fun s => mbind (execStmtList n (params.zip vals ++ kwvals ++ env) body s)
                (fun flow s => some (flowValue flow, s)))
              (fun m₁ m₂ hm => sameEmission_bind
                (ihSL (params.zip vals ++ kwvals ++ env) body m₁ m₂ hm)
                (fun flow k₁ k₂ hk => sameEmission_pure k₁ k₂ (flowValue flow) hk))
              vals kwvals st₁ st₂ hA
          | false =>
            simp only [reduceIte]
            exact sameEmission_bind
              (ihSL (params.zip vals ++ kwvals ++ env) body st₁ st₂ hA)
              (fun flow k₁ k₂ hk => sameEmission_pure k₁ k₂ (flowValue flow) hk)
    -- execStmt
    · intro env s st₁ st₂ hA
      cases s with
      | exprStmt e =>
        simp only [execStmt]
        exact sameEmission_bind (ihE env e st₁ st₂ hA)
          (fun v m₁ m₂ hm => sameEmission_pure m₁ m₂ (Flow.next env) hm)
      | assign targets value =>
        simp only [execStmt]
        refine sameEmission_bind (ihE env value st₁ st₂ hA) (fun v m₁ m₂ hm => ?_)
        cases hb : bindTargets env targets v with
        | none => simp only [hb]; trivial
        | some env2 =>
          simp only [hb]
          exact sameEmission_pure m₁ m₂ (Flow.next env2) hm
      | forLoop t it body =>
        simp only [execStmt]
        refine sameEmission_bind (ihE env it st₁ st₂ hA) (fun v m₁ m₂ hm => ?_)
        rcases v with _ | m | b | s | vs | vs | ⟨nm, ps, bd, dc, ad⟩ | ⟨c, ca⟩ <;>
          first
          | trivial
          | exact ihF env t vs body m₁ m₂ hm
      | ifStmt test body orelse =>
        simp only [execStmt]
        refine sameEmission_bind (ihE env test st₁ st₂ hA) (fun v m₁ m₂ hm => ?_)
        by_cases htv : truthy v = true
        · simp only [if_pos htv]; exact ihSL env body m₁ m₂ hm
        · simp only [if_neg htv]; exact ihSL env orelse m₁ m₂ hm
      | funcDef f ps body dec =>
        exact ⟨by rw [hA], by simp [hA], [], by simp, by simp⟩
      | ret e =>
        simp only [execStmt]
        exact sameEmission_bind (ihE env e st₁ st₂ hA)
          (fun v m₁ m₂ hm => sameEmission_pure m₁ m₂ (Flow.ret v) hm)
    -- execStmtList
    · intro env l st₁ st₂ hA
      cases l with
      | nil => exact sameEmission_pure st₁ st₂ (Flow.next env) hA
      | cons s rest =>
        simp only [execStmtList]
        refine sameEmission_bind (ihS env s st₁ st₂ hA) (fun flow m₁ m₂ hm => ?_)
        cases flow with
        | ret v => exact sameEmission_pure m₁ m₂ (Flow.ret v) hm
        | next env2 => exact ihSL env2 rest m₁ m₂ hm
    -- execFor
    · intro env t vs body st₁ st₂ hA
      cases vs with
      | nil => exact sameEmission_pure st₁ st₂ (Flow.next env) hA
      | cons v rest =>
        simp only [execFor]
        refine sameEmission_bind (ihSL (envSet env t v) body st₁ st₂ hA)
          (fun flow m₁ m₂ hm => ?_)
        cases flow with
        | ret rv => exact sameEmission_pure m₁ m₂ (Flow.ret rv) hm
        | next env2 => exact ihF env2 t rest body m₁ m₂ hm

/-! ## Concrete test programs -/

/-- `for i in [1, 2, 3]: x = i` — a loop over a 3-element sequence
whose body is one simple assignment. -/
def loopProg : List Stmt :=
  [Stmt.forLoop "i" (Exp.listE [Exp.constInt 1, Exp.constInt 2, Exp.constInt 3])
    [Stmt.assign [Target.name "x"] (Exp.name "i")]]

/-- `if 1 < 2: x = 5` — a conditional whose test is true. -/
def ifProg : List Stmt :=
  [Stmt.ifStmt (Exp.compare CmpOp.lt (Exp.constInt 1) (Exp.constInt 2))
    [Stmt.assign [Target.name "x"] (Exp.constInt 5)] []]

/-- `if 2 > 1: y = 3` — another true conditional. -/
def ifProg2 : List Stmt :=
  [Stmt.ifStmt (Exp.compare CmpOp.gt (Exp.constInt 2) (Exp.constInt 1))
    [Stmt.assign [Target.name "y"] (Exp.constInt 3)] []]

/-- `def f(a): return a` followed by the call `f(5)` — a function whose
body is a single return. -/
def funProg : List Stmt :=
  [Stmt.funcDef "f" ["a"] [Stmt.ret (Exp.name "a")] false,
   Stmt.exprStmt (Exp.call "f" [Exp.constInt 5] [])]

/-- `def g(): print(1)` followed by the call `g()` — a function body
with no loops, conditionals or assignments, but a print call. -/
def gProg : List Stmt :=
  [Stmt.funcDef "g" [] [Stmt.exprStmt (Exp.call "print" [Exp.constInt 1] [])] false,
   Stmt.exprStmt (Exp.call "g" [] [])]

/-- `a, b = 1, 2` — assignment to a tuple of names. -/
def tupleProg : List Stmt :=
  [Stmt.assign [Target.tupleT ["a", "b"]] (Exp.tupleE [Exp.constInt 1, Exp.constInt 2])]

/-- `a = b = 1` — a chained assignment with two name targets. -/
def chainProg : List Stmt :=
  [Stmt.assign [Target.name "a", Target.name "b"] (Exp.constInt 1)]

/-- `x = print(1)` — a print call in assigned-value position. -/
def assignPrintProg : List Stmt :=
  [Stmt.assign [Target.name "x"] (Exp.call "print" [Exp.constInt 1] [])]

/-- `print('a', 'b')` — a bare print statement. -/
def printProg : List Stmt :=
  [Stmt.exprStmt (Exp.call "print" [Exp.constStr "a", Exp.constStr "b"] [])]

/-- `def g(): return None` followed by `x = g` — supported constructs
whose instrumented run puts the `repr` of a function object (which
embeds its heap address) into a "Variable:" label. -/
def addrProg : List Stmt :=
  [Stmt.funcDef "g" [] [Stmt.ret Exp.constNone] false,
   Stmt.assign [Target.name "x"] (Exp.name "g")]

/-- Labels of the graph an instrumented run builds when started from a
given session state (two separate sessions differ in the allocator's
starting position). -/
def runLabelsFrom (p : List Stmt) (fuel : Nat) (st : PState) :
    Option (List String) :=
  (execStmtList fuel [] (transformStmtList p) st).map (fun r => vizLabels r.2.viz)

/-! ## The claims -/

/-- C1: for every sequence of `n` `add_node` calls within one session,
the graph has exactly `n` nodes and `n - 1` edges; the node identifiers
are `node_0 … node_{n-1}` in creation order (strictly increasing, never
reused), and the edge set is exactly the single simple path
`node_0 → node_1 → … → node_{n-1}`, so each new node's only predecessor
is the immediately preceding node and the first node has no incoming
edge. -/
theorem c1_add_node_single_path (calls : List (String × Option Value × String)) :
    (addNodeCalls calls initVisualizer).nodes.length = calls.length ∧
    (addNodeCalls calls initVisualizer).node_count = calls.length ∧
    (addNodeCalls calls initVisualizer).nodes.map DotNode.nid =
      (List.range calls.length).map mkId ∧
    (addNodeCalls calls initVisualizer).edges = chainEdges calls.length ∧
    (addNodeCalls calls initVisualizer).edges.length = calls.length - 1 := by
  have h := goodViz_addNodeCalls calls goodViz_init
  rw [Nat.zero_add] at h
  obtain ⟨hc, hn, he, hp⟩ := h
  refine ⟨?_, hc, hn, he, ?_⟩
  · have := congrArg List.length hn
    simpa using this
  · rw [he]
    simp [chainEdges]

/-- C2 counterexample: instrumenting and running
`for i in [1, 2, 3]: x = i` produces 12 nodes, three of which are
"Loop End" nodes — not the claimed 10 nodes with exactly one "Loop End"
(the `debug_loop_end` call is placed inside the loop body, so it fires
once per iteration). -/
theorem c2_loop_counterexample :
    runNodeCount loopProg 100 = some 12 ∧
    (runLabels loopProg 100).map (fun ls => ls.count "Loop End") = some 3 ∧
    ¬(runNodeCount loopProg 100 = some 10 ∧
      (runLabels loopProg 100).map (fun ls => ls.count "Loop End") = some 1) := by
  have h12 : runNodeCount loopProg 100 = some 12 := rfl
  refine ⟨h12, rfl, ?_⟩
  intro hcl
  rw [h12] at hcl
  exact absurd hcl.1 (by decide)

/-- C2 (amended): a loop over a 3-element sequence with one simple
assignment in its body produces, per iteration, one "loop start", one
"loop iteration", one "variable bound" and one "loop end" node, in that
order — 12 nodes in total from the loop, with the loop-end report (like
the loop-start report) firing on every iteration because both are
placed inside the body. -/
theorem c2_loop_node_sequence :
    runLabels loopProg 100 = some
      ["Loop Start: i in [1, 2, 3]", "Loop Iteration: 1", "Variable: x = 1",
       "Loop End",
       "Loop Start: i in [1, 2, 3]", "Loop Iteration: 2", "Variable: x = 2",
       "Loop End",
       "Loop Start: i in [1, 2, 3]", "Loop Iteration: 3", "Variable: x = 3",
       "Loop End"] := rfl

/-- A label of the shape `add_condition` would produce. -/
def isConditionLabel (l : String) : Bool :=
  "Condition: ".data.isPrefixOf l.data

/-- C3: running the instrumented `if 1 < 2: x = 5` yields only the
branch-taken node and the body's node — no node labelled with the
condition's textual form is ever created, because the
`debug_condition('1 < 2')` statement inserted before the branch merely
builds and discards a decorator closure instead of reporting. -/
theorem c3_true_branch_has_no_condition_node :
    runLabels ifProg 100 =
      some ["If Branch: 1 < 2\nTaken: True", "Variable: x = 5"] ∧
    (runLabels ifProg 100).map (fun ls => ls.filter isConditionLabel) =
      some [] :=
  ⟨rfl, rfl⟩

/-- C4: running the instrumented `if 2 > 1: y = 3` executes three
Runtime API reports (`debug_condition`, `debug_if_branch`,
`debug_variable`) but creates only two trace nodes: the executed
`debug_condition` call creates no node, so the node count does not
equal the number of executed reports. -/
theorem c4_executed_reports_exceed_nodes :
    runEventCount ifProg2 100 = some 3 ∧
    runNodeCount ifProg2 100 = some 2 ∧
    ¬(runEventCount ifProg2 100 = runNodeCount ifProg2 100) := by
  refine ⟨rfl, rfl, ?_⟩
  intro heq
  have h3 : runEventCount ifProg2 100 = some 3 := rfl
  have h2 : runNodeCount ifProg2 100 = some 2 := rfl
  rw [h3, h2] at heq
  exact absurd heq (by decide)

/-- C5 counterexample: `def g(): print(1)` has no loops, conditionals
or assignments in its body, yet calling `g()` produces three nodes
(entry, print, exit), not exactly two. -/
theorem c5_trivial_body_counterexample :
    runLabels gProg 100 = some ["Function: g()", "Print: 1", "Return: None"] ∧
    ¬(runNodeCount gProg 100 = some 2) := by
  refine ⟨rfl, ?_⟩
  have h : runNodeCount gProg 100 = some 3 := rfl
  rw [h]
  decide

/-- C5 (amended): the `debug_function` wrapper first reports the
function name with its positional and keyword arguments
(`start_function`), then runs the original body, then reports the
return value (`end_function`), in that order, and passes the body's
result through unchanged; a function whose body is a single `return`
(no loops, conditionals, assignments, prints or nested calls) produces
exactly two nodes — one "Function:" entry and one "Return:" exit —
joined by one edge. -/
theorem c5_wrapper_order_and_two_nodes :
    (∀ (fname : String) (body : PState → Option (Value × PState))
       (args : List Value) (kwargs : List (String × Value)) (st : PState),
       debug_function fname body args kwargs st =
         mbind (body { st with viz := st.viz.start_function fname args kwargs,
                               events := st.events ++ [Event.funcEnter] })
           (fun result st2 => some (result,
             { st2 with viz := st2.viz.end_function result,
                        events := st2.events ++ [Event.funcExit] }))) ∧
    (∀ (fname : String) (body : PState → Option (Value × PState))
       (args : List Value) (kwargs : List (String × Value)) (st : PState),
       Option.map Prod.fst (debug_function fname body args kwargs st) =
         Option.map Prod.fst
           (body { st with viz := st.viz.start_function fname args kwargs,
                           events := st.events ++ [Event.funcEnter] })) ∧
    runLabels funProg 100 = some ["Function: f(5)", "Return: 5"] ∧
    runNodeCount funProg 100 = some 2 ∧
    runEdges funProg 100 = some [("node_0", "node_1")] := by
  refine ⟨fun _ _ _ _ _ => rfl, ?_, rfl, rfl, rfl⟩
  intro fname body args kwargs st
  unfold debug_function
  cases body { st with viz := st.viz.start_function fname args kwargs,
                       events := st.events ++ [Event.funcEnter] } with
  | none => rfl
  | some r => rfl

/-- C6 counterexample: the chained assignment `a = b = 1` has multiple
targets, yet the transformer instruments it (it only inspects
`targets[0]`, which is a bare name), and the run produces one
"variable bound" node. -/
theorem c6_chained_assignment_counterexample :
    transformStmt (Stmt.assign [Target.name "a", Target.name "b"] (Exp.constInt 1)) =
      [Stmt.assign [Target.name "a", Target.name "b"] (Exp.constInt 1),
       Stmt.exprStmt (Exp.call "debug_variable" [Exp.constStr "a", Exp.name "a"] [])] ∧
    runLabels chainProg 100 = some ["Variable: a = 1"] ∧
    ¬(runNodeCount chainProg 100 = some 0) := by
  refine ⟨rfl, rfl, ?_⟩
  have h : runNodeCount chainProg 100 = some 1 := rfl
  rw [h]
  decide

/-- C6 (amended): an assignment whose first target is an attribute,
subscript or tuple target is left uninstrumented, and running
`a, b = 1, 2` creates no node at all; but an assignment is instrumented
whenever its first target is a bare name, even when further (chained)
targets follow. -/
theorem c6_unsupported_targets_uninstrumented :
    (∀ (obj fld : String) (rest : List Target) (value : Exp),
       transformStmt (Stmt.assign (Target.attr obj fld :: rest) value) =
         [Stmt.assign (Target.attr obj fld :: rest) value]) ∧
    (∀ (obj : String) (ix : Exp) (rest : List Target) (value : Exp),
       transformStmt (Stmt.assign (Target.subscript obj ix :: rest) value) =
         [Stmt.assign (Target.subscript obj ix :: rest) value]) ∧
    (∀ (xs : List String) (rest : List Target) (value : Exp),
       transformStmt (Stmt.assign (Target.tupleT xs :: rest) value) =
         [Stmt.assign (Target.tupleT xs :: rest) value]) ∧
    runLabels tupleProg 100 = some [] ∧
    runNodeCount tupleProg 100 = some 0 :=
  ⟨fun _ _ _ _ => rfl, fun _ _ _ _ => rfl, fun _ _ _ => rfl, rfl, rfl⟩

/-- C7 counterexample: the print call in `x = print(1)` is not
rewritten (`visit_Assign` never visits the assigned value), so the run
writes "1\n" to the output yet records no "Print:" node. -/
theorem c7_nested_print_not_rewritten :
    transformStmtList assignPrintProg =
      [Stmt.assign [Target.name "x"] (Exp.call "print" [Exp.constInt 1] []),
       Stmt.exprStmt (Exp.call "debug_variable" [Exp.constStr "x", Exp.name "x"] [])] ∧
    runLabels assignPrintProg 100 = some ["Variable: x = None"] ∧
    runOutput assignPrintProg 100 = some "1\n" :=
  ⟨rfl, rfl, rfl⟩

/-- C7 (amended): every print call the traversal visits (bare print
statements, prints in tests, return values and iterables) is rewritten
to `debug_print`, which performs the original output with the original
positional and keyword arguments unchanged after reporting, so the
program's printed output is unaffected there; print calls nested where
the traversal stops (assigned values, arguments of other calls) stay as
the real built-in `print` — also leaving the output unaffected, but
unreported. -/
theorem c7_visited_prints_rewritten_output_preserved :
    (∀ (args : List Exp) (kwargs : List (String × Exp)),
       visitExp (Exp.call "print" args kwargs) = Exp.call "debug_print" args kwargs) ∧
    (∀ (vals : List Value) (kwvals : List (String × Value)) (st : PState),
       (debug_print vals kwvals st).output = py_print vals kwvals st.output) ∧
    runOutput printProg 100 = some "a b\n" ∧
    runPlainOutput printProg 100 = some "a b\n" :=
  ⟨fun _ _ => rfl, fun _ _ _ => rfl, rfl, rfl⟩

/-- C8: when parsing fails, `instrument_file` propagates the parse
error before any transformation or execution: no outcome other than the
error is produced and the graph builder's state — its nodes, edges and
counter — is exactly the state from before the call. -/
theorem c8_parse_error_aborts_untouched (msg : String) (fuel : Nat)
    (env : Env) (st : PState) :
    instrument_file (Except.error msg) fuel env st = (Except.error msg, st) ∧
    (instrument_file (Except.error msg) fuel env st).2.viz.nodes = st.viz.nodes ∧
    (instrument_file (Except.error msg) fuel env st).2.viz.node_count =
      st.viz.node_count :=
  ⟨rfl, rfl, rfl⟩

/-- C8 witness at a concrete erroneous parse. -/
theorem c8_parse_error_aborts_untouched_witness :
    instrument_file (Except.error "invalid syntax") 100 [] initState =
      (Except.error "invalid syntax", initState) :=
  (c8_parse_error_aborts_untouched "invalid syntax" 100 [] initState).1

/-- C9 counterexample: the claim fails on the supported-construct
program `def g(): return None` followed by `x = g`. The instrumented
run reports `repr(g)`, which embeds the function object's per-session
heap address: a session whose allocator starts at address 0 labels the
variable node "Variable: x = <function g at 0x0>", while a session
whose allocator starts at address 1 labels it
"Variable: x = <function g at 0x1>" — identical inputs, different
graphs, because the label depends on the session's memory layout,
something outside the inputs. -/
theorem c9_address_counterexample :
    runLabelsFrom addrProg 100 initState =
      some ["Variable: x = <function g at 0x0>"] ∧
    runLabelsFrom addrProg 100 { initState with next_addr := 1 } =
      some ["Variable: x = <function g at 0x1>"] ∧
    runLabelsFrom addrProg 100 initState ≠
      runLabelsFrom addrProg 100 { initState with next_addr := 1 } := by
  have g0 : runLabelsFrom addrProg 100 initState =
      some ["Variable: x = <function g at 0x0>"] := rfl
  have g1 : runLabelsFrom addrProg 100 { initState with next_addr := 1 } =
      some ["Variable: x = <function g at 0x1>"] := rfl
  refine ⟨g0, g1, ?_⟩
  rw [g0, g1]
  decide

/-- C9 (amended): every Graph Builder label is a deterministic function
of the reported names, argument values, textual expression forms and
the session's function-object addresses. Two runs of the same program
whose session states agree on the allocator position emit the same
label sequence (and the same outcome) — in particular, re-running in a
session with the same address layout reproduces the graph
label-for-label — but labels that embed a function object's `repr`
depend on the per-session heap addresses, so two separate sessions can
differ exactly there. -/
theorem c9_labels_deterministic_given_allocator (p : List Stmt) (fuel : Nat)
    (env : Env) (st₁ st₂ : PState)
    (h : st₁.next_addr = st₂.next_addr) :
    SameEmission st₁ st₂
      (execStmtList fuel env (transformStmtList p) st₁)
      (execStmtList fuel env (transformStmtList p) st₂) :=
  (emission_state_independent fuel).2.2.2.2.2.1 env (transformStmtList p)
    st₁ st₂ h

/-- C9 witness: the amended determinism theorem applied to the
address-sensitive program itself, from two distinct session states that
agree on the allocator (they differ in prior output); both runs emit
the same single label. -/
theorem c9_labels_deterministic_given_allocator_witness :
    initState.next_addr = ({ initState with output := "x" } : PState).next_addr ∧
    SameEmission initState { initState with output := "x" }
      (execStmtList 100 [] (transformStmtList addrProg) initState)
      (execStmtList 100 [] (transformStmtList addrProg)
        { initState with output := "x" }) :=
  ⟨rfl, c9_labels_deterministic_given_allocator addrProg 100 []
    initState { initState with output := "x" } rfl⟩

/-- C10: `debug_print` reports exactly the space-joined `repr`s of its
positional arguments — the label never depends on the keyword arguments
(`sep`, `end`, `file`) — and the label's content can therefore differ
from the text actually written, e.g. `print('hi')` writes "hi\n" while
the node reads "Print: 'hi'". -/
theorem c10_print_label_repr_of_positionals (args : List Value)
    (kwargs : List (String × Value)) (st : PState) :
    vizLabels (debug_print args kwargs st).viz =
      vizLabels st.viz ++ ["Print: " ++ " ".intercalate (args.map reprV)] ∧
    vizLabels (debug_print [Value.str "hi"] [] initState).viz = ["Print: 'hi'"] ∧
    (debug_print [Value.str "hi"] [] initState).output = "hi\n" ∧
    ("Print: 'hi'" : String) ≠ "hi\n" := by
  refine ⟨emit_debug_print args kwargs st, rfl, rfl, by decide⟩

end DebugViz
